import Mathlib

/-!
# Verified model of the Oriana Cuello portfolio site's client-side scripts

Shallow embedding of the repository's JavaScript (`src/js/main.js` and the
standalone header script).  DOM element state is modelled explicitly: class
lists as `List String`, scroll offsets and pixel geometry as rationals,
inline styles as record fields.  Each event handler becomes a pure
state-transition function transcribed statement-by-statement from the
source; fallible evaluation (strict-mode `ReferenceError`) is modelled with
`Except`.
-/

/-- `classList.add c`: a `DOMTokenList` is a set, so the class is appended
only when absent. -/
def addClass (cs : List String) (c : String) : List String :=
  if c ∈ cs then cs else cs ++ [c]

/-- `classList.remove c`. -/
def removeClass (cs : List String) (c : String) : List String :=
  cs.filter (fun d => d ≠ c)

/-- `classList.toggle c`. -/
def toggleClass (cs : List String) (c : String) : List String :=
  if c ∈ cs then removeClass cs c else addClass cs c

theorem mem_addClass_self (cs : List String) (c : String) : c ∈ addClass cs c := by
  unfold addClass
  split
  · assumption
  · simp

theorem not_mem_removeClass_self (cs : List String) (c : String) :
    c ∉ removeClass cs c := by
  unfold removeClass
  simp

namespace Header

/-- `HEADER_CONFIG.SCROLL_THRESHOLD` of the standalone header script. -/
def SCROLL_THRESHOLD : ℚ := 50

def scrolledClass : String := "scrolled"

/-- One run of the (throttled) scroll handler body of `Header.handleScroll`:
if `window.scrollY > HEADER_CONFIG.SCROLL_THRESHOLD` the header gains the
`scrolled` class, otherwise it is removed. -/
def handleScroll (scrollY : ℚ) (headerClasses : List String) : List String :=
  if scrollY > SCROLL_THRESHOLD then addClass headerClasses scrolledClass
  else removeClass headerClasses scrolledClass

end Header

/-- C9: after the throttled scroll handler runs at vertical scroll offset
`s`, the header element carries the `scrolled` class iff `s > 50`; for every
`s ≤ 50` the class is absent. -/
theorem c9_scrolled_class_iff (s : ℚ) (cs : List String) :
    Header.scrolledClass ∈ Header.handleScroll s cs ↔ s > 50 := by
  unfold Header.handleScroll
  split
  · next h => exact iff_of_true (mem_addClass_self cs _) h
  · next h => exact iff_of_false (not_mem_removeClass_self cs _) h

namespace Portfolio

def touchedClass : String := "portfolio__item--touched"

/-- The `touchend` handler of `Portfolio.handleTouchInteractions`, viewed on
the touched-flags of the portfolio items (item positions indexed by `ℕ`):
`duration = Date.now() - touchStartTime`; a tap shorter than 200 ms toggles
item `i`'s `portfolio__item--touched` class and removes it from every other
item; otherwise nothing changes. -/
def handleTouchEnd (touched : ℕ → Bool) (i : ℕ) (duration : ℤ) : ℕ → Bool :=
  if duration < 200 then
    fun j => if j = i then !(touched i) else false
  else touched

end Portfolio

/-- C10: a sub-200 ms tap on portfolio item `i` toggles its touched state and
clears every other item (so at most one item is touched afterwards); a press
of 200 ms or longer changes no item's state. -/
theorem c10_touch_tap (touched : ℕ → Bool) (i : ℕ) (duration : ℤ) :
    (duration < 200 →
      (Portfolio.handleTouchEnd touched i duration i = !(touched i)
        ∧ (∀ j, j ≠ i → Portfolio.handleTouchEnd touched i duration j = false)
        ∧ ∀ j k, Portfolio.handleTouchEnd touched i duration j = true →
            Portfolio.handleTouchEnd touched i duration k = true → j = k))
    ∧ (200 ≤ duration → Portfolio.handleTouchEnd touched i duration = touched) := by
  constructor
  · intro hfast
    unfold Portfolio.handleTouchEnd
    rw [if_pos hfast]
    refine ⟨by simp, fun j hj => by simp [hj], fun j k hj hk => ?_⟩
    by_cases hji : j = i <;> by_cases hki : k = i <;> simp_all
  · intro hslow
    unfold Portfolio.handleTouchEnd
    rw [if_neg (by omega)]

/-- C10 witness: concrete instantiation with two items, item 0 touched,
tapping item 1 for 100 ms, and pressing for 300 ms. -/
theorem c10_touch_tap_witness :
    ((100 : ℤ) < 200
      ∧ Portfolio.handleTouchEnd (fun j => j = 0) 1 100 1 = !(decide (1 = 0)))
    ∧ ((200 : ℤ) ≤ 300
      ∧ Portfolio.handleTouchEnd (fun j => j = 0) 1 300 = (fun j => j = 0)) :=
  ⟨⟨by norm_num, ((c10_touch_tap (fun j => decide (j = 0)) 1 100).1 (by norm_num)).1⟩,
   ⟨by norm_num, (c10_touch_tap (fun j => decide (j = 0)) 1 300).2 (by norm_num)⟩⟩

namespace MiniPolaroids

/-- The bound computation and clamp of `MiniPolaroids.dragMove`
(`main.js`): `maxX = aboutRect.width - elementRect.width`,
`maxY = aboutRect.height - elementRect.height`, then
`currentX = Math.max(0, Math.min(currentX, maxX))` and likewise for y. -/
def dragClamp (currentX currentY containerW containerH elemW elemH : ℚ) : ℚ × ℚ :=
  let maxX := containerW - elemW
  let maxY := containerH - elemH
  (max 0 (min currentX maxX), max 0 (min currentY maxY))

end MiniPolaroids

/-- C5 counterexample: for a 150×120 element in a 100×100 container at
pointer-derived position (30, 40), the clamped x is 0, which violates the
claimed bound `x ≤ containerWidth - elementWidth = -50`. -/
theorem c5_counterexample :
    ¬ ((0 : ℚ) ≤ (MiniPolaroids.dragClamp 30 40 100 100 150 120).1
        ∧ (MiniPolaroids.dragClamp 30 40 100 100 150 120).1 ≤ 100 - 150) := by
  norm_num [MiniPolaroids.dragClamp]

/-- C5 (amended): provided the element fits inside the container on both
axes, the clamped translation `(x, y)` satisfies
`0 ≤ x ≤ containerWidth - elemWidth` and `0 ≤ y ≤ containerHeight - elemHeight`,
keeping the element's bounding box fully inside the container's. -/
theorem c5_clamp_in_bounds (cx cy cw ch ew eh : ℚ) (hw : ew ≤ cw) (hh : eh ≤ ch) :
    0 ≤ (MiniPolaroids.dragClamp cx cy cw ch ew eh).1
      ∧ (MiniPolaroids.dragClamp cx cy cw ch ew eh).1 ≤ cw - ew
      ∧ 0 ≤ (MiniPolaroids.dragClamp cx cy cw ch ew eh).2
      ∧ (MiniPolaroids.dragClamp cx cy cw ch ew eh).2 ≤ ch - eh := by
  unfold MiniPolaroids.dragClamp
  exact ⟨le_max_left _ _,
    max_le (by linarith) (min_le_right _ _),
    le_max_left _ _,
    max_le (by linarith) (min_le_right _ _)⟩

/-- C5 witness: a 20×10 element in a 100×100 container, pointer position
(130, -5): the clamp lands on the boundary and stays in bounds. -/
theorem c5_clamp_in_bounds_witness :
    ((20 : ℚ) ≤ 100 ∧ (10 : ℚ) ≤ 100)
      ∧ (0 ≤ (MiniPolaroids.dragClamp 130 (-5) 100 100 20 10).1
          ∧ (MiniPolaroids.dragClamp 130 (-5) 100 100 20 10).1 ≤ 100 - 20
          ∧ 0 ≤ (MiniPolaroids.dragClamp 130 (-5) 100 100 20 10).2
          ∧ (MiniPolaroids.dragClamp 130 (-5) 100 100 20 10).2 ≤ 100 - 10) :=
  ⟨⟨by norm_num, by norm_num⟩,
   c5_clamp_in_bounds 130 (-5) 100 100 20 10 (by norm_num) (by norm_num)⟩

namespace Header

def menuOpenClass : String := "menu-open"

def activeClass : String := "active"

def openLabel : String := "Abrir menú"

def closeLabel : String := "Cerrar menú"

def hashString : String := "#"

/-- State touched by the overlay header (`src/unnamed/part_000`, overlay
variant): the controller's own fields (`isMenuOpen`, `scrollPosition`), the
class lists and aria attributes it mutates, the inline body styles of the
scroll lock, the window's scroll offset and the visible URL. -/
structure State where
  isMenuOpen : Bool
  scrollPosition : ℚ
  pageScroll : ℚ
  menuToggleClasses : List String
  overlayClasses : List String
  headerClasses : List String
  htmlClasses : List String
  bodyClasses : List String
  bodyPositionFixed : Bool
  bodyTop : Option ℚ
  bodyWidthFull : Bool
  bodyOverflowHidden : Bool
  ariaExpanded : Bool
  ariaLabel : String
  url : String
  deriving DecidableEq

/-- `Header.disableScroll`: save `window.pageYOffset` into
`this.scrollPosition`, add the `menu-open` classes, pin the body
(`position: fixed; top: -scrollPosition px; width: 100%; overflow: hidden`). -/
def disableScroll (st : State) : State :=
  let p := st.pageScroll
  { st with
    scrollPosition := p
    htmlClasses := addClass st.htmlClasses menuOpenClass
    bodyClasses := addClass st.bodyClasses menuOpenClass
    bodyPositionFixed := true
    bodyTop := some (-p)
    bodyWidthFull := true
    bodyOverflowHidden := true }

/-- `Header.enableScroll`: remove the `menu-open` classes, reset the body's
inline styles, then `window.scrollTo(0, this.scrollPosition)`. -/
def enableScroll (st : State) : State :=
  { st with
    htmlClasses := removeClass st.htmlClasses menuOpenClass
    bodyClasses := removeClass st.bodyClasses menuOpenClass
    bodyPositionFixed := false
    bodyTop := none
    bodyWidthFull := false
    bodyOverflowHidden := false
    pageScroll := st.scrollPosition }

/-- `Header.toggleMenu`: flip `isMenuOpen`, toggle the button/overlay/header
classes and aria attributes, then lock or unlock scrolling. -/
def toggleMenu (st : State) : State :=
  let isMenuOpen := !st.isMenuOpen
  let st1 : State := { st with
    isMenuOpen := isMenuOpen
    menuToggleClasses := toggleClass st.menuToggleClasses activeClass
    ariaExpanded := isMenuOpen
    overlayClasses := toggleClass st.overlayClasses activeClass
    headerClasses := toggleClass st.headerClasses menuOpenClass
    ariaLabel := if isMenuOpen then closeLabel else openLabel }
  if st1.isMenuOpen then disableScroll st1 else enableScroll st1

/-- `Header.closeMenu`: force-close the menu then `enableScroll`. -/
def closeMenu (st : State) : State :=
  let st1 : State := { st with
    isMenuOpen := false
    menuToggleClasses := removeClass st.menuToggleClasses activeClass
    overlayClasses := removeClass st.overlayClasses activeClass
    headerClasses := removeClass st.headerClasses menuOpenClass
    ariaExpanded := false
    ariaLabel := openLabel }
  enableScroll st1

/-- Environment step: the window's scroll offset changes by some external
cause while the model is between handler runs (e.g. the fixed-position body
collapsing the document, or a programmatic scroll). -/
def setPageScroll (st : State) (s : ℚ) : State := { st with pageScroll := s }

end Header

/-- C1: opening the mobile menu at scroll offset `p` saves `p` and pins the
body via fixed positioning offset by `-p`; closing the menu afterwards
(whether by toggling again or by `closeMenu`) restores the page scroll
offset to exactly `p`, regardless of how the offset was perturbed while the
menu was open. -/
theorem c1_menu_scroll_restore (st : Header.State) (s : ℚ)
    (hclosed : st.isMenuOpen = false) :
    (Header.toggleMenu st).isMenuOpen = true
      ∧ (Header.toggleMenu st).scrollPosition = st.pageScroll
      ∧ (Header.toggleMenu st).bodyPositionFixed = true
      ∧ (Header.toggleMenu st).bodyTop = some (-st.pageScroll)
      ∧ (Header.toggleMenu (Header.setPageScroll (Header.toggleMenu st) s)).pageScroll
          = st.pageScroll
      ∧ (Header.closeMenu (Header.setPageScroll (Header.toggleMenu st) s)).pageScroll
          = st.pageScroll := by
  simp [Header.toggleMenu, Header.disableScroll, Header.enableScroll,
    Header.closeMenu, Header.setPageScroll, hclosed]

/-- C1 witness: open the menu at offset 734, perturb the offset to 0 while
open, close the menu: the offset is exactly 734 again. -/
theorem c1_menu_scroll_restore_witness :
    (Header.closeMenu (Header.setPageScroll
        (Header.toggleMenu
          { isMenuOpen := false, scrollPosition := 0, pageScroll := 734
            menuToggleClasses := [], overlayClasses := [], headerClasses := []
            htmlClasses := [], bodyClasses := [], bodyPositionFixed := false
            bodyTop := none, bodyWidthFull := false, bodyOverflowHidden := false
            ariaExpanded := false, ariaLabel := Header.openLabel, url := "" }) 0)).pageScroll
      = (734 : ℚ) := by
  have h := c1_menu_scroll_restore
    { isMenuOpen := false, scrollPosition := 0, pageScroll := 734
      menuToggleClasses := [], overlayClasses := [], headerClasses := []
      htmlClasses := [], bodyClasses := [], bodyPositionFixed := false
      bodyTop := none, bodyWidthFull := false, bodyOverflowHidden := false
      ariaExpanded := false, ariaLabel := Header.openLabel, url := "" } 0 rfl
  exact h.2.2.2.2.2

/-- A DOM/browser command issued by the anchor-click handler, in program
order. -/
inductive NavAction where
  | preventDefault : NavAction
  | scrollToSmooth : ℚ → NavAction
  | menuClosed : NavAction
  | scrollToInstant : ℚ → ℚ → NavAction
  | pushState : String → NavAction
  deriving DecidableEq

def isMenuClosedAction : NavAction → Bool
  | NavAction.menuClosed => true
  | _ => false

def isSmoothScrollAction : NavAction → Bool
  | NavAction.scrollToSmooth _ => true
  | _ => false

/-- `href.startsWith('#')` on a JS string, evaluated on its characters. -/
def startsWithHash (s : String) : Bool :=
  match s.data with
  | c :: _ => c = '#'
  | [] => false

/-- `href.substring(1)`. -/
def fragmentOf (s : String) : String := String.mk (s.data.drop 1)

namespace Header

/-- The click handler installed by `Header.handleSmoothScroll`, together
with the ordered list of DOM/browser commands it issues.  `lookup` models
`document.getElementById` restricted to `offsetTop`; `headerHeight` is
`this.header.offsetHeight`.  Program order in the source: `preventDefault`,
compute `targetPosition = targetElement.offsetTop - headerHeight`, smooth
`window.scrollTo`, then (only if the menu is open) `closeMenu` — whose
`enableScroll` issues an instant `window.scrollTo(0, this.scrollPosition)` —
and finally `history.pushState(null, null, href)`. -/
def handleAnchorClick (st : State) (href : String) (lookup : String → Option ℚ)
    (headerHeight : ℚ) : State × List NavAction :=
  if startsWithHash href then
    let targetId := fragmentOf href
    match lookup targetId with
    | some offsetTop =>
        let targetPosition := offsetTop - headerHeight
        let st1 : State := { st with pageScroll := targetPosition }
        if st1.isMenuOpen then
          let st2 := closeMenu st1
          ({ st2 with url := href },
            [NavAction.preventDefault, NavAction.scrollToSmooth targetPosition,
              NavAction.menuClosed, NavAction.scrollToInstant 0 st1.scrollPosition,
              NavAction.pushState href])
        else
          ({ st1 with url := href },
            [NavAction.preventDefault, NavAction.scrollToSmooth targetPosition,
              NavAction.pushState href])
    | none => (st, [NavAction.preventDefault])
  else (st, [])

/-- A concrete header state with the mobile menu open at saved offset 734. -/
def c2OpenState : State :=
  { isMenuOpen := true, scrollPosition := 734, pageScroll := 0
    menuToggleClasses := [activeClass], overlayClasses := [activeClass]
    headerClasses := [menuOpenClass], htmlClasses := [menuOpenClass]
    bodyClasses := [menuOpenClass], bodyPositionFixed := true
    bodyTop := some (-734), bodyWidthFull := true, bodyOverflowHidden := true
    ariaExpanded := true, ariaLabel := closeLabel, url := "" }

def c2Href : String := "#work"

def c2Lookup : String → Option ℚ :=
  fun targetId => if targetId = "work" then some 900 else none

end Header

/-- C2 counterexample: with the menu open (saved offset 734), clicking the
link `#work` whose target has `offsetTop = 900` under a header of height 80
issues the smooth scroll *before* closing the menu, so the claim that the
menu is closed before the scroll is initiated is false on this input. -/
theorem c2_counterexample :
    ¬ ((Header.handleAnchorClick Header.c2OpenState Header.c2Href
          Header.c2Lookup 80).2.findIdx isMenuClosedAction
        < (Header.handleAnchorClick Header.c2OpenState Header.c2Href
          Header.c2Lookup 80).2.findIdx isSmoothScrollAction) := by
  decide

/-- C2 (amended): for an anchor click on a fragment link with an existing
target while the menu is open, the handler issues, in order:
`preventDefault`, a smooth scroll to `offsetTop - headerHeight`, the menu
close, the instant restoring scroll to the saved offset, and a `pushState`
of the fragment URL; afterwards the menu is closed, the URL carries the
fragment without any further navigation, and the page scroll offset ends at
the saved pre-open offset (the restoring scroll supersedes the smooth one). -/
theorem c2_anchor_click_order (st : Header.State) (href : String)
    (lookup : String → Option ℚ) (headerHeight offsetTop : ℚ)
    (hopen : st.isMenuOpen = true)
    (hhash : startsWithHash href = true)
    (hlookup : lookup (fragmentOf href) = some offsetTop) :
    (Header.handleAnchorClick st href lookup headerHeight).2
        = [NavAction.preventDefault,
           NavAction.scrollToSmooth (offsetTop - headerHeight),
           NavAction.menuClosed,
           NavAction.scrollToInstant 0 st.scrollPosition,
           NavAction.pushState href]
      ∧ (Header.handleAnchorClick st href lookup headerHeight).1.isMenuOpen = false
      ∧ (Header.handleAnchorClick st href lookup headerHeight).1.url = href
      ∧ (Header.handleAnchorClick st href lookup headerHeight).1.pageScroll
          = st.scrollPosition := by
  simp [Header.handleAnchorClick, hhash, hlookup, hopen, Header.closeMenu,
    Header.enableScroll]

/-- C2 witness: the amended statement at the concrete open state, link
`#work`, target `offsetTop = 900`, header height 80. -/
theorem c2_anchor_click_order_witness :
    (Header.handleAnchorClick Header.c2OpenState Header.c2Href
          Header.c2Lookup 80).2
        = [NavAction.preventDefault, NavAction.scrollToSmooth (900 - 80),
           NavAction.menuClosed, NavAction.scrollToInstant 0 734,
           NavAction.pushState Header.c2Href]
      ∧ (Header.handleAnchorClick Header.c2OpenState Header.c2Href
          Header.c2Lookup 80).1.isMenuOpen = false
      ∧ (Header.handleAnchorClick Header.c2OpenState Header.c2Href
          Header.c2Lookup 80).1.url = Header.c2Href
      ∧ (Header.handleAnchorClick Header.c2OpenState Header.c2Href
          Header.c2Lookup 80).1.pageScroll = Header.c2OpenState.scrollPosition :=
  c2_anchor_click_order Header.c2OpenState Header.c2Href Header.c2Lookup 80 900
    rfl (by decide) (by decide)

namespace App

/-- The component constructions performed by `App.initializeComponents`
(`main.js`), in source order.  `MiniPolaroids` appears nowhere in the list,
and the `Header` is constructed separately by the standalone header script's
own `DOMContentLoaded` listener. -/
def initializeComponents : List String :=
  ["ScrollAnimations", "Portfolio", "FooterAnimations", "PerformanceOptimizer",
   "AccessibilityEnhancer", "ErrorHandler"]

/-- The standalone header script runs
`document.addEventListener('DOMContentLoaded', () => new Header())`, so the
header is constructed at page load. -/
def headerConstructedAtLoad : Bool := true

end App

/-- The components named in the spec's system overview, paired with the
class in the source that implements each. -/
def overviewComponents : List (String × String) :=
  [("ScrollAnimationTrigger", "ScrollAnimations"),
   ("PortfolioInteraction", "Portfolio"),
   ("PerformanceAssist", "PerformanceOptimizer"),
   ("AccessibilityAssist", "AccessibilityEnhancer"),
   ("DraggableDecoration", "MiniPolaroids"),
   ("FooterRevealAnimation", "FooterAnimations"),
   ("FaultLogger", "ErrorHandler")]

/-- C3 (code bug): `MiniPolaroids` — the class implementing the overview's
DraggableDecoration — is fully defined in `main.js` but never constructed:
`App.initializeComponents` omits it, so it is not initialized at page load,
while every other overview component is (the header by its own script). -/
theorem c3_draggable_never_constructed :
    ("MiniPolaroids" ∈ overviewComponents.map Prod.snd
        ∧ "MiniPolaroids" ∉ App.initializeComponents)
      ∧ (∀ c ∈ overviewComponents.map Prod.snd,
          c ≠ "MiniPolaroids" → c ∈ App.initializeComponents)
      ∧ App.headerConstructedAtLoad = true := by
  decide

namespace ScrollAnimations

/-- `finalNumber.replace(/[^\d]/g, '')`: keep only the digit characters. -/
def digitsOf (s : String) : String := String.mk (s.data.filter Char.isDigit)

/-- `finalNumber.replace(/[\d]/g, '')`: remove the digit characters. -/
def stripDigits (s : String) : String :=
  String.mk (s.data.filter (fun c => !c.isDigit))

/-- Decimal value of a digit string (`parseInt` applied to the digits-only
string); `none` models `NaN` on an empty digit string. -/
def parseDigits (cs : List Char) : Option ℕ :=
  match cs with
  | [] => none
  | _ => some (cs.foldl (fun n c => 10 * n + (c.toNat - 48)) 0)

/-- `parseInt(finalNumber.replace(/[^\d]/g, ''))`. -/
def parseIntDigits (s : String) : Option ℕ := parseDigits (digitsOf s).data

/-- `ScrollAnimations.easeOut(t) = 1 - Math.pow(1 - t, 3)`. -/
def easeOut (t : ℚ) : ℚ := 1 - (1 - t) ^ 3

/-- `const duration = 1000` (ms) in `animateNumber`. -/
def animDuration : ℚ := 1000

/-- The parsed statistic: magnitude, non-digit suffix, and the exact
original string. -/
structure NumberAnim where
  numericValue : ℕ
  suffix : String
  finalNumber : String
  deriving DecidableEq

/-- The setup part of `ScrollAnimations.animateNumber`: parse the element's
current text into a numeric magnitude and suffix; `none` models the
`isNaN(numericValue)` early return (element left untouched). -/
def setupAnim (finalNumber : String) : Option NumberAnim :=
  match parseIntDigits finalNumber with
  | none => none
  | some v =>
      some { numericValue := v, suffix := stripDigits finalNumber
             finalNumber := finalNumber }

/-- The element's text and whether a further animation frame is scheduled. -/
structure FrameState where
  text : String
  running : Bool
  deriving DecidableEq

/-- The `current = 0` initialisation of `animateNumber`. -/
def initialCurrent : ℤ := 0

/-- One `updateNumber` frame callback at `elapsed = currentTime - startTime`
milliseconds: `progress = Math.min(elapsed / duration, 1)`;
`current = Math.floor(numericValue * easeOut(progress))`; write
`current + suffix`; while `progress < 1` schedule another frame, otherwise
force-write the exact original string and stop.  With no frame scheduled
(`running = false`) nothing happens. -/
def updateNumber (a : NumberAnim) (elapsed : ℚ) (st : FrameState) : FrameState :=
  if st.running then
    let progress := min (elapsed / animDuration) 1
    let current : ℤ := Int.floor ((a.numericValue : ℚ) * easeOut progress)
    if progress < 1 then { text := toString current ++ a.suffix, running := true }
    else { text := a.finalNumber, running := false }
  else st

/-- Run the frame callbacks at the given elapsed times, in order. -/
def runFrames (a : NumberAnim) (ts : List ℚ) (st : FrameState) : FrameState :=
  ts.foldl (fun s e => updateNumber a e s) st

/-- The number computed at elapsed time `e` by `updateNumber`. -/
def displayedAt (a : NumberAnim) (e : ℚ) : ℤ :=
  Int.floor ((a.numericValue : ℚ) * easeOut (min (e / animDuration) 1))

/-- The numbers computed across a list of frame times. -/
def displayedValues (a : NumberAnim) (ts : List ℚ) : List ℤ :=
  ts.map (displayedAt a)

end ScrollAnimations

/-- C6: for a statistic whose text parses to magnitude `m = a.numericValue`,
the frame callback at elapsed fraction `t = min(elapsed/1000, 1)` displays
exactly `⌊m * (1 - (1 - t)^3)⌋` followed by the non-digit suffix, and the
completion frame (`t = 1`) force-writes back exactly the original string. -/
theorem c6_number_animation_frames (s : String) (a : ScrollAnimations.NumberAnim)
    (ha : ScrollAnimations.setupAnim s = some a) (e : ℚ)
    (st : ScrollAnimations.FrameState) (hrun : st.running = true) :
    ScrollAnimations.parseIntDigits s = some a.numericValue
      ∧ (ScrollAnimations.updateNumber a e st).text =
          (if min (e / 1000) 1 < 1 then
            toString (Int.floor ((a.numericValue : ℚ)
                * (1 - (1 - min (e / 1000) 1) ^ 3)))
              ++ ScrollAnimations.stripDigits s
          else s) := by
  unfold ScrollAnimations.setupAnim at ha
  cases hp : ScrollAnimations.parseIntDigits s with
  | none => rw [hp] at ha; cases ha
  | some v =>
      rw [hp] at ha
      simp only [Option.some.injEq] at ha
      subst ha
      refine ⟨rfl, ?_⟩
      simp only [ScrollAnimations.updateNumber, ScrollAnimations.easeOut,
        ScrollAnimations.animDuration, hrun, if_true]
      split <;> rfl

/-- The literal statistic string used by the witnesses below. -/
def stat250A : String := "250+"

/-- C6 witness: the statistic "250+" at elapsed time 500 ms mid-animation. -/
theorem c6_number_animation_frames_witness :
    ScrollAnimations.parseIntDigits stat250A = some (250 : ℕ)
      ∧ (ScrollAnimations.updateNumber
            { numericValue := 250, suffix := "+", finalNumber := stat250A }
            500 { text := stat250A, running := true }).text =
          (if min ((500 : ℚ) / 1000) 1 < 1 then
            toString (Int.floor ((250 : ℚ)
                * (1 - (1 - min ((500 : ℚ) / 1000) 1) ^ 3)))
              ++ ScrollAnimations.stripDigits stat250A
          else stat250A) :=
  c6_number_animation_frames stat250A
    { numericValue := 250, suffix := "+", finalNumber := stat250A }
    (by decide) 500 { text := stat250A, running := true } rfl

def stat250Text : String := "250+"

/-- The parse of "250+": magnitude 250, suffix "+". -/
def statAnim250 : ScrollAnimations.NumberAnim :=
  { numericValue := 250, suffix := "+", finalNumber := stat250Text }

theorem easeOut_mono {t1 t2 : ℚ} (h : t1 ≤ t2) :
    ScrollAnimations.easeOut t1 ≤ ScrollAnimations.easeOut t2 := by
  unfold ScrollAnimations.easeOut
  nlinarith [sq_nonneg ((1 - t1) + (1 - t2)), sq_nonneg ((1 - t1) - (1 - t2))]

theorem easeOut_nonneg {t : ℚ} (h0 : 0 ≤ t) (h1 : t ≤ 1) :
    0 ≤ ScrollAnimations.easeOut t := by
  have hp : ((1 : ℚ) - t) ^ 3 ≤ 1 :=
    pow_le_one₀ (by linarith) (by linarith)
  unfold ScrollAnimations.easeOut
  linarith

theorem displayedAt_mono (a : ScrollAnimations.NumberAnim) {e1 e2 : ℚ}
    (h : e1 ≤ e2) :
    ScrollAnimations.displayedAt a e1 ≤ ScrollAnimations.displayedAt a e2 := by
  unfold ScrollAnimations.displayedAt
  have ht : min (e1 / ScrollAnimations.animDuration) 1
      ≤ min (e2 / ScrollAnimations.animDuration) 1 := by
    unfold ScrollAnimations.animDuration
    have : e1 / 1000 ≤ e2 / 1000 := by linarith
    exact min_le_min this le_rfl
  exact Int.floor_le_floor
    (mul_le_mul_of_nonneg_left (easeOut_mono ht) (Nat.cast_nonneg _))

theorem displayedAt_nonneg (a : ScrollAnimations.NumberAnim) {e : ℚ}
    (h : 0 ≤ e) : 0 ≤ ScrollAnimations.displayedAt a e := by
  unfold ScrollAnimations.displayedAt
  have ht0 : 0 ≤ min (e / ScrollAnimations.animDuration) 1 := by
    unfold ScrollAnimations.animDuration
    exact le_min (by positivity) zero_le_one
  have ht1 : min (e / ScrollAnimations.animDuration) 1 ≤ 1 := min_le_right _ _
  exact Int.floor_nonneg.mpr
    (mul_nonneg (Nat.cast_nonneg _) (easeOut_nonneg ht0 ht1))

theorem displayedAt_done (a : ScrollAnimations.NumberAnim) {e : ℚ}
    (h : 1000 ≤ e) :
    ScrollAnimations.displayedAt a e = (a.numericValue : ℤ) := by
  unfold ScrollAnimations.displayedAt ScrollAnimations.animDuration
  have hmin : min (e / 1000) 1 = (1 : ℚ) :=
    min_eq_right ((one_le_div (by norm_num)).mpr h)
  rw [hmin]
  norm_num [ScrollAnimations.easeOut]

theorem updateNumber_textInv (a : ScrollAnimations.NumberAnim) (e : ℚ)
    (st : ScrollAnimations.FrameState)
    (h : st.running = true ∨ st.text = a.finalNumber) :
    (ScrollAnimations.updateNumber a e st).running = true
      ∨ (ScrollAnimations.updateNumber a e st).text = a.finalNumber := by
  unfold ScrollAnimations.updateNumber
  split
  · dsimp only
    split
    · exact Or.inl rfl
    · exact Or.inr rfl
  · next hr =>
      rcases h with h | h
      · exact absurd h hr
      · exact Or.inr h

theorem runFrames_textInv (a : ScrollAnimations.NumberAnim) (ts : List ℚ) :
    ∀ st : ScrollAnimations.FrameState,
      (st.running = true ∨ st.text = a.finalNumber) →
      ((ScrollAnimations.runFrames a ts st).running = true
        ∨ (ScrollAnimations.runFrames a ts st).text = a.finalNumber) := by
  induction ts with
  | nil => intro st h; exact h
  | cons t ts ih =>
      intro st h
      simp only [ScrollAnimations.runFrames, List.foldl_cons] at ih ⊢
      exact ih _ (updateNumber_textInv a t st h)

theorem updateNumber_done (a : ScrollAnimations.NumberAnim) {e : ℚ}
    (st : ScrollAnimations.FrameState) (he : 1000 ≤ e)
    (h : st.running = true ∨ st.text = a.finalNumber) :
    (ScrollAnimations.updateNumber a e st).text = a.finalNumber := by
  unfold ScrollAnimations.updateNumber
  split
  · next hr =>
      have hmin : min (e / ScrollAnimations.animDuration) 1 = (1 : ℚ) := by
        unfold ScrollAnimations.animDuration
        exact min_eq_right ((one_le_div (by norm_num)).mpr he)
      simp only [hmin, lt_irrefl, if_false]
  · next hr =>
      rcases h with h | h
      · exact absurd h hr
      · exact h

/-- C7: for the statistic "250+" (which parses to 250 with suffix "+"), over
any completed monotone sequence of frame times the sequence of displayed
numbers — starting from the initial `current = 0` — is monotone
non-decreasing, the last frame's number is 250, and the final displayed
string is exactly "250+". -/
theorem c7_stat250_monotone (ts : List ℚ) (e : ℚ)
    (hpos : ∀ x ∈ ts ++ [e], 0 ≤ x)
    (hmono : (ts ++ [e]).Chain' (· ≤ ·))
    (hdone : 1000 ≤ e) :
    ScrollAnimations.setupAnim stat250Text = some statAnim250
      ∧ (ScrollAnimations.initialCurrent ::
          ScrollAnimations.displayedValues statAnim250 (ts ++ [e])).Chain' (· ≤ ·)
      ∧ (ScrollAnimations.displayedValues statAnim250 (ts ++ [e])).getLast?
          = some 250
      ∧ (ScrollAnimations.runFrames statAnim250 (ts ++ [e])
          { text := stat250Text, running := true }).text = stat250Text := by
  refine ⟨by decide, ?_, ?_, ?_⟩
  · rw [List.chain'_cons']
    constructor
    · intro b hb
      unfold ScrollAnimations.displayedValues at hb
      rw [List.head?_map] at hb
      cases hh : (ts ++ [e]).head? with
      | none => rw [hh] at hb; cases hb
      | some x =>
          rw [hh] at hb
          have hb' : ScrollAnimations.displayedAt statAnim250 x = b := by
            simpa using hb
          subst hb'
          unfold ScrollAnimations.initialCurrent
          exact displayedAt_nonneg _ (hpos x (List.mem_of_mem_head? hh))
    · unfold ScrollAnimations.displayedValues
      rw [List.chain'_map]
      exact List.Chain'.imp (fun a b hab => displayedAt_mono _ hab) hmono
  · unfold ScrollAnimations.displayedValues
    rw [List.map_append, List.getLast?_append]
    simp only [List.map_cons, List.map_nil, List.getLast?_singleton]
    rw [displayedAt_done _ hdone]
    rfl
  · unfold ScrollAnimations.runFrames
    rw [List.foldl_append]
    exact updateNumber_done _ _ hdone
      (runFrames_textInv _ ts _ (Or.inl rfl))

/-- C7 witness: a single frame at elapsed time 1000 ms. -/
theorem c7_stat250_monotone_witness :
    ScrollAnimations.setupAnim stat250Text = some statAnim250
      ∧ (ScrollAnimations.initialCurrent ::
          ScrollAnimations.displayedValues statAnim250 ([] ++ [(1000 : ℚ)])).Chain' (· ≤ ·)
      ∧ (ScrollAnimations.displayedValues statAnim250 ([] ++ [(1000 : ℚ)])).getLast?
          = some 250
      ∧ (ScrollAnimations.runFrames statAnim250 ([] ++ [(1000 : ℚ)])
          { text := stat250Text, running := true }).text = stat250Text :=
  c7_stat250_monotone [] 1000
    (by intro x hx; simp only [List.nil_append, List.mem_singleton] at hx; simp [hx])
    (by simp) le_rfl

/-- `foldl` preserves an invariant preserved by each step. -/
theorem foldl_inv {α β : Type} (P : α → Prop) (f : α → β → α)
    (hstep : ∀ a b, P a → P (f a b)) :
    ∀ (l : List β) (a : α), P a → P (l.foldl f a) := by
  intro l
  induction l with
  | nil => intro a h; exact h
  | cons b l ih => intro a h; exact ih _ (hstep a b h)

namespace ScrollAnimations

def animatedClass : String := "animated"

def statClass : String := "stat"

/-- Per-element view of the entry handling in
`ScrollAnimations.setupIntersectionObserver`: the element's class list and
how many times `animateNumber` has been invoked on it. -/
structure ObservedElem where
  classes : List String
  animCount : ℕ
  deriving DecidableEq

/-- One entry for the element inside a callback run: when the entry is
intersecting and the element does not yet carry `animated`, add `animated`
and — if the element is a `.stat` — run the number animation. -/
def observerStep (st : ObservedElem) (isIntersecting : Bool) : ObservedElem :=
  if isIntersecting = true ∧ animatedClass ∉ st.classes then
    let st1 : ObservedElem := { st with classes := addClass st.classes animatedClass }
    if statClass ∈ st1.classes then { st1 with animCount := st1.animCount + 1 }
    else st1
  else st

/-- One callback run over its batch of entries, then a page lifetime of
callback runs. -/
def observerCallback (st : ObservedElem) (entries : List Bool) : ObservedElem :=
  entries.foldl observerStep st

def observerRun (st : ObservedElem) (batches : List (List Bool)) : ObservedElem :=
  batches.foldl observerCallback st

end ScrollAnimations

namespace PerformanceOptimizer

def loadedClass : String := "loaded"

/-- Per-image view of `PerformanceOptimizer.lazyLoadImages`: whether the
image is still observed, its `data-src` and `src` attributes, its class
list, and how many source swaps have happened. -/
structure ImgState where
  observed : Bool
  dataSrc : Option String
  src : String
  classes : List String
  swapCount : ℕ
  deriving DecidableEq

/-- One intersecting entry: promote `data-src` to `src` (removing the
attribute), add `loaded`, and `unobserve` the image. -/
def lazyStep (st : ImgState) (isIntersecting : Bool) : ImgState :=
  if isIntersecting then
    match st.dataSrc with
    | some d =>
        { st with
          src := d
          dataSrc := none
          swapCount := st.swapCount + 1
          classes := addClass st.classes loadedClass
          observed := false }
    | none => { st with classes := addClass st.classes loadedClass, observed := false }
  else st

/-- One callback run: entries are delivered only while the image is
observed. -/
def lazyCallback (st : ImgState) (entries : List Bool) : ImgState :=
  if st.observed then entries.foldl lazyStep st else st

def lazyRun (st : ImgState) (batches : List (List Bool)) : ImgState :=
  batches.foldl lazyCallback st

end PerformanceOptimizer

namespace FooterAnimations

/-- Per-footer view of `FooterAnimations.setupIntersectionObserver`: the
`isAnimated` guard flag and how many times `triggerAnimations` ran. -/
structure FooterState where
  isAnimated : Bool
  triggerCount : ℕ
  deriving DecidableEq

/-- One entry: trigger the reveal only when intersecting and not yet
animated, then set the guard. -/
def footerStep (st : FooterState) (isIntersecting : Bool) : FooterState :=
  if isIntersecting = true ∧ st.isAnimated = false then
    { isAnimated := true, triggerCount := st.triggerCount + 1 }
  else st

def footerRun (st : FooterState) (batches : List (List Bool)) : FooterState :=
  batches.foldl (fun s entries => entries.foldl footerStep s) st

end FooterAnimations

theorem observerStep_inv (st : ScrollAnimations.ObservedElem) (b : Bool)
    (h : (ScrollAnimations.animatedClass ∉ st.classes → st.animCount = 0)
      ∧ st.animCount ≤ 1) :
    (ScrollAnimations.animatedClass ∉ (ScrollAnimations.observerStep st b).classes
        → (ScrollAnimations.observerStep st b).animCount = 0)
      ∧ (ScrollAnimations.observerStep st b).animCount ≤ 1 := by
  unfold ScrollAnimations.observerStep
  split
  · next hc =>
      have hcnt : st.animCount = 0 := h.1 hc.2
      dsimp only
      split
      · refine ⟨(fun hn => absurd (mem_addClass_self _ _) hn), ?_⟩
        dsimp only
        omega
      · refine ⟨(fun hn => absurd (mem_addClass_self _ _) hn), ?_⟩
        dsimp only
        omega
  · exact h

theorem lazyStep_inv (st : PerformanceOptimizer.ImgState) (b : Bool)
    (h : (st.dataSrc.isSome = true → st.swapCount = 0) ∧ st.swapCount ≤ 1) :
    ((PerformanceOptimizer.lazyStep st b).dataSrc.isSome = true
        → (PerformanceOptimizer.lazyStep st b).swapCount = 0)
      ∧ (PerformanceOptimizer.lazyStep st b).swapCount ≤ 1 := by
  unfold PerformanceOptimizer.lazyStep
  split
  · split
    · next d hd =>
        have hcnt : st.swapCount = 0 := h.1 (by rw [hd]; rfl)
        refine ⟨(fun hn => by simp at hn), ?_⟩
        dsimp only
        omega
    · next hd => exact h
  · exact h

theorem footerStep_inv (st : FooterAnimations.FooterState) (b : Bool)
    (h : (st.isAnimated = false → st.triggerCount = 0) ∧ st.triggerCount ≤ 1) :
    ((FooterAnimations.footerStep st b).isAnimated = false
        → (FooterAnimations.footerStep st b).triggerCount = 0)
      ∧ (FooterAnimations.footerStep st b).triggerCount ≤ 1 := by
  unfold FooterAnimations.footerStep
  split
  · next hc =>
      have hcnt : st.triggerCount = 0 := h.1 hc.2
      refine ⟨(fun hn => by cases hn), ?_⟩
      dsimp only
      omega
  · exact h

/-- C8: each one-shot effect — the entrance/number animation of a `.stat`,
the lazy image source swap, and the footer reveal — executes at most once
per element over the whole page lifetime, for every sequence of
enter/exit entry batches, guarded respectively by the `animated` class, the
`data-src` removal plus unobserve, and the `isAnimated` flag. -/
theorem c8_one_shot_effects (cs0 : List String)
    (d0 : Option String) (src0 : String) (ics0 : List String)
    (b1 b2 b3 : List (List Bool)) :
    (ScrollAnimations.observerRun
        { classes := cs0, animCount := 0 } b1).animCount ≤ 1
      ∧ (PerformanceOptimizer.lazyRun
          { observed := true, dataSrc := d0, src := src0
            classes := ics0, swapCount := 0 } b2).swapCount ≤ 1
      ∧ (FooterAnimations.footerRun
          { isAnimated := false, triggerCount := 0 } b3).triggerCount ≤ 1 := by
  refine ⟨?_, ?_, ?_⟩
  · have := foldl_inv
      (fun st : ScrollAnimations.ObservedElem =>
        (ScrollAnimations.animatedClass ∉ st.classes → st.animCount = 0)
          ∧ st.animCount ≤ 1)
      ScrollAnimations.observerCallback
      (fun st entries hst =>
        foldl_inv _ ScrollAnimations.observerStep
          (fun a b ha => observerStep_inv a b ha) entries st hst)
      b1 { classes := cs0, animCount := 0 } ⟨(fun _ => rfl), Nat.zero_le 1⟩
    exact this.2
  · have := foldl_inv
      (fun st : PerformanceOptimizer.ImgState =>
        (st.dataSrc.isSome = true → st.swapCount = 0) ∧ st.swapCount ≤ 1)
      PerformanceOptimizer.lazyCallback
      (fun st entries hst => by
        unfold PerformanceOptimizer.lazyCallback
        split
        · exact foldl_inv _ PerformanceOptimizer.lazyStep
            (fun a b ha => lazyStep_inv a b ha) entries st hst
        · exact hst)
      b2 { observed := true
           dataSrc := d0
           src := src0
           classes := ics0
           swapCount := 0 } ⟨(fun _ => rfl), Nat.zero_le 1⟩
    exact this.2
  · have := foldl_inv
      (fun st : FooterAnimations.FooterState =>
        (st.isAnimated = false → st.triggerCount = 0) ∧ st.triggerCount ≤ 1)
      (fun s entries => entries.foldl FooterAnimations.footerStep s)
      (fun st entries hst =>
        foldl_inv _ FooterAnimations.footerStep
          (fun a b ha => footerStep_inv a b ha) entries st hst)
      b3 { isAnimated := false, triggerCount := 0 } ⟨(fun _ => rfl), Nat.zero_le 1⟩
    exact this.2

/-- C8 witness: a fresh stat element, an image with no deferred source, and
the footer, each put through repeated enter/exit batches. -/
theorem c8_one_shot_effects_witness :
    (ScrollAnimations.observerRun
        { classes := [ScrollAnimations.statClass], animCount := 0 }
        [[true, false, true], [true]]).animCount ≤ 1
      ∧ (PerformanceOptimizer.lazyRun
          { observed := true, dataSrc := none, src := Portfolio.touchedClass
            classes := [], swapCount := 0 } [[true], [true, true]]).swapCount ≤ 1
      ∧ (FooterAnimations.footerRun
          { isAnimated := false, triggerCount := 0 }
          [[true, true], [false, true]]).triggerCount ≤ 1 :=
  c8_one_shot_effects [ScrollAnimations.statClass] none
    Portfolio.touchedClass [] [[true, false, true], [true]]
    [[true], [true, true]] [[true, true], [false, true]]

namespace MiniPolaroids

def isDraggingName : String := "isDragging"

def currentXName : String := "currentX"

def currentYName : String := "currentY"

def initialXName : String := "initialX"

def initialYName : String := "initialY"

def xOffsetName : String := "xOffset"

def yOffsetName : String := "yOffset"

/-- The top-level declarations of `main.js` (a strict-mode classic script):
besides its own parameters and locals these are the only identifiers a
`MiniPolaroids` method body can resolve. -/
def mainJsTopLevel : List String :=
  ["CONFIG", "debounce", "throttle", "isInViewport", "ScrollAnimations",
   "Portfolio", "PerformanceOptimizer", "AccessibilityEnhancer", "ErrorHandler",
   "MiniPolaroids", "FooterAnimations", "App", "app"]

/-- The `let` locals of `MiniPolaroids.makeDraggable`'s body — visible only
inside `makeDraggable` itself, not inside the class methods it installs as
event handlers. -/
def makeDraggableLocals : List String :=
  [isDraggingName, currentXName, currentYName, initialXName, initialYName,
   xOffsetName, yOffsetName]

def referenceError (x : String) : String :=
  "ReferenceError: " ++ x ++ " is not defined"

/-- Reading an identifier: a `ReferenceError` when no binding in the scope
chain declares it. -/
def readVar (scope : List (String × ℚ)) (x : String) : Except String ℚ :=
  match scope.find? (fun p => p.1 == x) with
  | some p => Except.ok p.2
  | none => Except.error (referenceError x)

/-- Strict-mode assignment: writing to an identifier with no binding throws
instead of creating a global. -/
def assignVar (scope : List (String × ℚ)) (x : String) (v : ℚ) :
    Except String (List (String × ℚ)) :=
  match scope.find? (fun p => p.1 == x) with
  | some _ => Except.ok (scope.map (fun p => if p.1 == x then (p.1, v) else p))
  | none => Except.error (referenceError x)

def grabbingCursor : String := "grabbing"

def pointerCursor : String := "pointer"

/-- A mouse or touch pointer event as the handlers read it. -/
structure PointerEvent where
  isMouse : Bool
  clientX : ℚ
  clientY : ℚ
  targetInElement : Bool
  deriving DecidableEq

/-- The mini-polaroid element: its `isDragging` expando property (undefined,
i.e. falsy, until ever assigned), the translate part of its inline
`style.transform` (`none` = never written), and its cursor style. -/
structure Elem where
  isDragging : Bool
  transform : Option (ℚ × ℚ)
  cursor : String
  deriving DecidableEq

/-- `MiniPolaroids.dragStart(e, element)` transcribed statement by
statement.  `scope` holds the bindings the method body can reach beyond its
own parameters and locals; `initialX`, `initialY`, `xOffset`, `yOffset` are
free identifiers here (they are locals of `makeDraggable`, not of this
method). -/
def dragStart (scope : List (String × ℚ)) (e : PointerEvent) (element : Elem) :
    Except String Elem := do
  let clientX := e.clientX
  let clientY := e.clientY
  let xOffset ← readVar scope xOffsetName
  let scope ← assignVar scope initialXName (clientX - xOffset)
  let yOffset ← readVar scope yOffsetName
  let _scope ← assignVar scope initialYName (clientY - yOffset)
  if e.targetInElement then
    pure { element with isDragging := true, cursor := grabbingCursor }
  else
    pure element

/-- `MiniPolaroids.dragMove(e, element)`.  The free identifiers `initialX`,
`initialY`, `currentX`, `currentY`, `xOffset`, `yOffset` are again only
locals of `makeDraggable`.  `aboutW`/`aboutH` and `elemW`/`elemH` are the
bounding-rect sizes of `this.aboutSection` and of the element. -/
def dragMove (scope : List (String × ℚ)) (aboutW aboutH elemW elemH : ℚ)
    (e : PointerEvent) (element : Elem) : Except String Elem := do
  if element.isDragging then
    let clientX := e.clientX
    let clientY := e.clientY
    let initialX ← readVar scope initialXName
    let scope ← assignVar scope currentXName (clientX - initialX)
    let initialY ← readVar scope initialYName
    let scope ← assignVar scope currentYName (clientY - initialY)
    let maxX := aboutW - elemW
    let maxY := aboutH - elemH
    let currentX ← readVar scope currentXName
    let scope ← assignVar scope currentXName (max 0 (min currentX maxX))
    let currentY ← readVar scope currentYName
    let scope ← assignVar scope currentYName (max 0 (min currentY maxY))
    let currentX ← readVar scope currentXName
    let scope ← assignVar scope xOffsetName currentX
    let currentY ← readVar scope currentYName
    let _scope ← assignVar scope yOffsetName currentY
    pure { element with transform := some (currentX, currentY) }
  else
    pure element

/-- `MiniPolaroids.dragEnd(element)`: `initialX = currentX` and
`initialY = currentY` read and write `makeDraggable` locals before the
`isDragging`/cursor resets. -/
def dragEnd (scope : List (String × ℚ)) (element : Elem) : Except String Elem := do
  let currentX ← readVar scope currentXName
  let scope ← assignVar scope initialXName currentX
  let currentY ← readVar scope currentYName
  let _scope ← assignVar scope initialYName currentY
  pure { element with isDragging := false, cursor := pointerCursor }

/-- A pointer event dispatched to one of the three installed handlers. -/
inductive DragEvent where
  | start : PointerEvent → DragEvent
  | move : ℚ → ℚ → ℚ → ℚ → PointerEvent → DragEvent
  | finish : DragEvent
  deriving DecidableEq

/-- Dispatch one DOM event to its handler.  A handler that throws leaves the
element as it was: each of the three handlers throws — when it does — before
its first mutation of the element, and the uncaught exception just
propagates out of the listener. -/
def dispatch (scope : List (String × ℚ)) (element : Elem) :
    DragEvent → Elem
  | DragEvent.start e =>
      match dragStart scope e element with
      | Except.ok el => el
      | Except.error _ => element
  | DragEvent.move aw ah ew eh e =>
      match dragMove scope aw ah ew eh e element with
      | Except.ok el => el
      | Except.error _ => element
  | DragEvent.finish =>
      match dragEnd scope element with
      | Except.ok el => el
      | Except.error _ => element

/-- A whole pointer-interaction history. -/
def runEvents (scope : List (String × ℚ)) (element : Elem)
    (evs : List DragEvent) : Elem :=
  evs.foldl (dispatch scope) element

end MiniPolaroids

theorem find?_eq_none_of_scope (scope : List (String × ℚ)) (n : String)
    (hscope : ∀ p ∈ scope, p.1 ∈ MiniPolaroids.mainJsTopLevel)
    (hn : n ∉ MiniPolaroids.mainJsTopLevel) :
    scope.find? (fun p => p.1 == n) = none := by
  rw [List.find?_eq_none]
  intro p hp
  simp only [beq_iff_eq]
  intro h
  exact hn (h ▸ hscope p hp)

theorem readVar_not_in_scope (scope : List (String × ℚ)) (n : String)
    (hscope : ∀ p ∈ scope, p.1 ∈ MiniPolaroids.mainJsTopLevel)
    (hn : n ∉ MiniPolaroids.mainJsTopLevel) :
    MiniPolaroids.readVar scope n
      = Except.error (MiniPolaroids.referenceError n) := by
  unfold MiniPolaroids.readVar
  rw [find?_eq_none_of_scope scope n hscope hn]

theorem dragStart_throws (scope : List (String × ℚ))
    (hscope : ∀ p ∈ scope, p.1 ∈ MiniPolaroids.mainJsTopLevel)
    (e : MiniPolaroids.PointerEvent) (element : MiniPolaroids.Elem) :
    MiniPolaroids.dragStart scope e element
      = Except.error (MiniPolaroids.referenceError MiniPolaroids.xOffsetName) := by
  unfold MiniPolaroids.dragStart
  rw [readVar_not_in_scope scope MiniPolaroids.xOffsetName hscope (by decide)]
  rfl

theorem dragEnd_throws (scope : List (String × ℚ))
    (hscope : ∀ p ∈ scope, p.1 ∈ MiniPolaroids.mainJsTopLevel)
    (element : MiniPolaroids.Elem) :
    MiniPolaroids.dragEnd scope element
      = Except.error (MiniPolaroids.referenceError MiniPolaroids.currentXName) := by
  unfold MiniPolaroids.dragEnd
  rw [readVar_not_in_scope scope MiniPolaroids.currentXName hscope (by decide)]
  rfl

theorem dragMove_not_dragging (scope : List (String × ℚ))
    (aw ah ew eh : ℚ) (e : MiniPolaroids.PointerEvent)
    (element : MiniPolaroids.Elem) (hel : element.isDragging = false) :
    MiniPolaroids.dragMove scope aw ah ew eh e element = Except.ok element := by
  unfold MiniPolaroids.dragMove
  simp only [hel, Bool.false_eq_true, if_false]
  rfl

theorem dispatch_fixed (scope : List (String × ℚ))
    (hscope : ∀ p ∈ scope, p.1 ∈ MiniPolaroids.mainJsTopLevel)
    (element : MiniPolaroids.Elem) (hel : element.isDragging = false)
    (ev : MiniPolaroids.DragEvent) :
    MiniPolaroids.dispatch scope element ev = element := by
  cases ev with
  | start e =>
      unfold MiniPolaroids.dispatch
      dsimp only
      rw [dragStart_throws scope hscope e element]
  | move aw ah ew eh e =>
      unfold MiniPolaroids.dispatch
      dsimp only
      rw [dragMove_not_dragging scope aw ah ew eh e element hel]
  | finish =>
      unfold MiniPolaroids.dispatch
      dsimp only
      rw [dragEnd_throws scope hscope element]

/-- C4: in strict mode the drag handlers reference identifiers (`initialX`,
`initialY` assigned; `xOffset`, `yOffset` read) that are declared only as
locals of `makeDraggable`'s closure and are not in scope of the methods, so
`dragStart` throws a `ReferenceError` (at the read of `xOffset`) before the
dragging flag is ever set; consequently no sequence of pointer events ever
changes a decoration's transform — the element is left exactly as it was. -/
theorem c4_drag_handlers_reference_error (scope : List (String × ℚ))
    (hscope : ∀ p ∈ scope, p.1 ∈ MiniPolaroids.mainJsTopLevel)
    (element : MiniPolaroids.Elem) (hel : element.isDragging = false) :
    (∀ x ∈ MiniPolaroids.makeDraggableLocals, x ∉ MiniPolaroids.mainJsTopLevel)
      ∧ (∀ e, MiniPolaroids.dragStart scope e element
          = Except.error (MiniPolaroids.referenceError MiniPolaroids.xOffsetName))
      ∧ ∀ evs, MiniPolaroids.runEvents scope element evs = element := by
  refine ⟨by decide, ?_, ?_⟩
  · intro e
    exact dragStart_throws scope hscope e element
  · intro evs
    induction evs with
    | nil => rfl
    | cons ev evs ih =>
        unfold MiniPolaroids.runEvents at ih ⊢
        rw [List.foldl_cons, dispatch_fixed scope hscope element hel ev]
        exact ih

/-- C4 witness: the empty scope (no reachable binding is named like a drag
local), a fresh element and a mouse-down/move/up interaction. -/
theorem c4_drag_handlers_reference_error_witness :
    (MiniPolaroids.dragStart []
        { isMouse := true, clientX := 10, clientY := 20, targetInElement := true }
        { isDragging := false, transform := none, cursor := MiniPolaroids.pointerCursor }
      = Except.error (MiniPolaroids.referenceError MiniPolaroids.xOffsetName))
      ∧ MiniPolaroids.runEvents []
          { isDragging := false, transform := none, cursor := MiniPolaroids.pointerCursor }
          [MiniPolaroids.DragEvent.start
              { isMouse := true, clientX := 10, clientY := 20, targetInElement := true },
            MiniPolaroids.DragEvent.move 100 100 20 10
              { isMouse := true, clientX := 55, clientY := 66, targetInElement := true },
            MiniPolaroids.DragEvent.finish]
        = { isDragging := false, transform := none, cursor := MiniPolaroids.pointerCursor } := by
  have h := c4_drag_handlers_reference_error []
    (by intro p hp; exact absurd hp (List.not_mem_nil p))
    { isDragging := false, transform := none, cursor := MiniPolaroids.pointerCursor } rfl
  exact ⟨h.2.1 _, h.2.2 _⟩
